import Mathlib

/-!
Shallow embedding of the CARD-BACKEND smart-card payment service
(`src/main.py` and `src/utils/sms_utils.py`).

Modelling conventions:
* MongoDB collections become Lean lists of structures; `find_one` is
  `List.find?` (first match), `update_one` / `find_one_and_update` update the
  first matching element.
* Python floats (monetary amounts) are modelled as rationals `ℚ`; `int(x)`
  is truncation toward zero (`pyInt`).  Binary floating-point rounding is
  abstracted away.
* A handler becomes a pure function returning the (possibly unchanged)
  database together with `Except ApiError response`; raising `HTTPException`
  is returning `.error` with the database as it was at the raise point.
* Wall-clock time is passed in as a `Nat` tick plus its pre-formatted date
  string, mirroring `datetime.datetime.now()` / `strftime`.
* External collaborators (Razorpay gateway, Twilio) are passed in as
  explicit outcome values / functions.
* MongoDB ObjectIds (`_id`) are not modelled on the structured collections;
  the raw-document model used for the `GET /student/{id}` handler carries
  them explicitly.
-/

namespace CardBackend

/-- A student document, with the fields `main.py` reads/writes.
`balance` is read with brackets (`student["balance"]`), so it is required;
`wallet_balance`, `password`, `parent_phone`, `parent_name` are read with
`.get` and may be absent. -/
structure Student where
  student_id : String
  name : String
  balance : ℚ
  wallet_balance : Option ℚ
  password : Option String
  parent_phone : Option String
  parent_name : Option String
deriving Repr, DecidableEq

/-- A vendor document.  `balance` is always read with `.get("balance", 0)`,
so it is optional with default `0`. -/
structure Vendor where
  vendor_id : String
  name : String
  upi_id : String
  balance : Option ℚ
deriving Repr, DecidableEq

/-- A transaction document.  Recharge orders carry `order_id`/`created_at`;
purchase records carry `timestamp`, `description` and the two balance
snapshots.  Fields a given flow does not write are `none`. -/
structure Transaction where
  order_id : Option String
  student_id : String
  vendor_id : String
  amount : ℚ
  type : String
  status : String
  description : Option String
  created_at : Option Nat
  timestamp : Option Nat
  completed_at : Option Nat
  formatted_date : String
  payment_id : Option String
  student_balance : Option ℚ
  vendor_balance : Option ℚ
deriving Repr, DecidableEq

/-- The three collections of the record store. -/
structure DB where
  students : List Student
  vendors : List Vendor
  transactions : List Transaction
deriving Repr, DecidableEq

/-- Embeds `students_collection.find_one({"student_id": sid})`. -/
def findStudent (db : DB) (sid : String) : Option Student :=
  db.students.find? (fun s => s.student_id == sid)

/-- Embeds `vendors_collection.find_one({"vendor_id": vid})`. -/
def findVendor (db : DB) (vid : String) : Option Vendor :=
  db.vendors.find? (fun v => v.vendor_id == vid)

/-- Embeds `transactions_collection.find_one({"order_id": oid})`: a document
matches only if it has an `order_id` field equal to `oid`. -/
def findOrder (db : DB) (oid : String) : Option Transaction :=
  db.transactions.find? (fun t => t.order_id == some oid)

/-- MongoDB `update_one`: rewrite the first element satisfying `p`. -/
def updateFirst {α : Type} (p : α → Bool) (f : α → α) : List α → List α
  | [] => []
  | x :: xs => if p x then f x :: xs else x :: updateFirst p f xs

/-- MongoDB `find_one_and_update` with `return_document=True`: rewrite the
first element satisfying `p` and also return the rewritten document. -/
def findOneAndUpdate {α : Type} (p : α → Bool) (f : α → α) :
    List α → List α × Option α
  | [] => ([], none)
  | x :: xs =>
    if p x then (f x :: xs, some (f x))
    else
      let r := findOneAndUpdate p f xs
      (x :: r.1, r.2)

/-- The error taxonomy of the HTTP handlers (`HTTPException` status codes
and detail strings). -/
inductive ApiError where
  | notFound (detail : String)
  | unauthorized (detail : String)
  | badRequest (detail : String)
  | serverError (detail : String)
deriving Repr, DecidableEq

/-- The HTTP status code attached to each error. -/
def ApiError.statusCode : ApiError → Nat
  | .notFound _ => 404
  | .unauthorized _ => 401
  | .badRequest _ => 400
  | .serverError _ => 500

/-- Request body of `POST /process_student_payment`. -/
structure StudentPaymentRequest where
  student_id : String
  vendor_id : String
  amount : ℚ
  description : String
  password : String
deriving Repr, DecidableEq

/-- Success body of `POST /process_student_payment`.  The `transaction_id`
(a stringified fresh ObjectId) is not modelled. -/
structure StudentPaymentResponse where
  status : String
  message : String
  student_balance : ℚ
  vendor_balance : ℚ
  transaction_date : String
deriving Repr, DecidableEq

/-- Embeds `process_student_payment` (src/main.py, `POST /process_student_payment`):
look up the student, check the password (`payment.password !=
student.get("password")` → 401), check `student["balance"] <
payment.amount` → 400, look up the vendor, check `vendor.get("balance", 0)
< payment.amount` → 400, then set both balances to the precomputed
differences, append a `completed` purchase transaction snapshotting the new
balances, and return them.  The best-effort parent notification is wrapped
in try/except in the source and affects neither state nor response, so it
is not threaded through. -/
def process_student_payment (db : DB) (payment : StudentPaymentRequest)
    (now : Nat) (fd : String) :
    DB × Except ApiError StudentPaymentResponse :=
  match findStudent db payment.student_id with
  | none => (db, .error (.notFound "Student not found"))
  | some student =>
    if student.password ≠ some payment.password then
      (db, .error (.unauthorized "Invalid student password"))
    else if student.balance < payment.amount then
      (db, .error (.badRequest "Insufficient balance"))
    else
      match findVendor db payment.vendor_id with
      | none => (db, .error (.notFound "Vendor not found"))
      | some vendor =>
        if vendor.balance.getD 0 < payment.amount then
          (db, .error (.badRequest "Insufficient vendor balance"))
        else
          let new_student_balance := student.balance - payment.amount
          let new_vendor_balance := vendor.balance.getD 0 - payment.amount
          let txn : Transaction :=
            { order_id := none
              student_id := payment.student_id
              vendor_id := payment.vendor_id
              amount := payment.amount
              type := "purchase"
              description := some payment.description
              status := "completed"
              created_at := none
              timestamp := some now
              completed_at := none
              formatted_date := fd
              payment_id := none
              student_balance := some new_student_balance
              vendor_balance := some new_vendor_balance }
          let db' : DB :=
            { students := updateFirst (fun s => s.student_id == payment.student_id)
                (fun s => { s with balance := new_student_balance }) db.students
              vendors := updateFirst (fun v => v.vendor_id == payment.vendor_id)
                (fun v => { v with balance := some new_vendor_balance }) db.vendors
              transactions := db.transactions ++ [txn] }
          (db', .ok
            { status := "success"
              message := "Payment processed successfully"
              student_balance := new_student_balance
              vendor_balance := new_vendor_balance
              transaction_date := fd })

/-- Python `int(x)`: truncation toward zero. -/
def pyInt (q : ℚ) : ℤ :=
  if 0 ≤ q then ⌊q⌋ else ⌈q⌉

/-- Request body of `POST /create_recharge_order` (`WalletRechargeRequest`
is declared in `models.py`, which is not part of the sources; its fields are
taken from how `main.py` reads it: `student_id`, `vendor_id`, `amount`). -/
structure WalletRechargeRequest where
  student_id : String
  vendor_id : String
  amount : ℚ
deriving Repr, DecidableEq

/-- The `order_data` dict sent to `client.order.create`. -/
structure OrderData where
  amount : ℤ
  currency : String
  payment_capture : Nat
  notes_student_id : String
  notes_vendor_id : String
deriving Repr, DecidableEq

/-- The `order_data` built by `create_recharge_order`:
`order_amount = int(float(request.amount) * 100)` (rupees → paise,
truncated), `order_currency = 'INR'`, `payment_capture = 1`, and the
student/vendor ids as notes. -/
def rechargeOrderData (request : WalletRechargeRequest) : OrderData :=
  { amount := pyInt (request.amount * 100)
    currency := "INR"
    payment_capture := 1
    notes_student_id := request.student_id
    notes_vendor_id := request.vendor_id }

/-- Success body of `POST /create_recharge_order`. -/
structure RechargeOrderResponse where
  id : String
  amount : ℤ
  currency : String
  key : String
deriving Repr, DecidableEq

/-- Embeds `create_recharge_order` (src/main.py, `POST /create_recharge_order`):
look up student and vendor (404 each), build the minor-unit order data,
call the gateway (`client.order.create`; failure → 500), insert a
`pending`/`recharge` transaction carrying `order_id` and `created_at`, then
best-effort notify the parent.  `gateway` is the external Razorpay call,
returning the created order id or an error message; `_notifyOk` is the
boolean result of `send_payment_notification`, which the source ignores. -/
def create_recharge_order (db : DB) (request : WalletRechargeRequest)
    (gateway : OrderData → Except String String)
    (now : Nat) (fd : String) (razorpay_key_id : String) (_notifyOk : Bool) :
    DB × Except ApiError RechargeOrderResponse :=
  match findStudent db request.student_id with
  | none => (db, .error (.notFound "Student not found"))
  | some _student =>
    match findVendor db request.vendor_id with
    | none => (db, .error (.notFound "Vendor not found"))
    | some _vendor =>
      let order_data := rechargeOrderData request
      match gateway order_data with
      | .error e =>
        (db, .error (.serverError ("Failed to create payment order: " ++ e)))
      | .ok order_id =>
        let order_doc : Transaction :=
          { order_id := some order_id
            student_id := request.student_id
            vendor_id := request.vendor_id
            amount := request.amount
            status := "pending"
            type := "recharge"
            description := none
            created_at := some now
            timestamp := none
            completed_at := none
            formatted_date := fd
            payment_id := none
            student_balance := none
            vendor_balance := none }
        let db' : DB := { db with transactions := db.transactions ++ [order_doc] }
        (db', .ok
          { id := order_id
            amount := order_data.amount
            currency := order_data.currency
            key := razorpay_key_id })

/-- Request body of `POST /verify_recharge_payment`.  The handler receives a
raw dict; only these keys are read.  `amount` stands for a possible extra
key in the dict that the handler never reads. -/
structure VerifyPaymentRequest where
  razorpay_payment_id : String
  razorpay_order_id : String
  student_id : String
  vendor_id : String
  amount : Option ℚ
deriving Repr, DecidableEq

/-- Success body of `POST /verify_recharge_payment`. -/
structure VerifyResponse where
  status : String
  message : String
  new_balance : ℚ
deriving Repr, DecidableEq

/-- Embeds `verify_recharge_payment` (src/main.py, `POST /verify_recharge_payment`):
verify the gateway signature (`sigValid` is the outcome of
`client.utility.verify_payment_signature`; failure → 400), look up the
pending transaction by `order_id` (404), look up student and vendor (404
each), `$inc` the student's `wallet_balance` and the vendor's `balance` by
the stored `order['amount']` (a `$inc` on a missing field creates it, hence
`getD 0`), mark the transaction `completed` with `payment_id` and
completion time, and return the student's post-update `wallet_balance`
(`student_update.get('wallet_balance', 0)`).  The notification block is
try/except-guarded and affects nothing. -/
def verify_recharge_payment (db : DB) (payment : VerifyPaymentRequest)
    (sigValid : Bool) (now : Nat) (fd : String) :
    DB × Except ApiError VerifyResponse :=
  if !sigValid then
    (db, .error (.badRequest "Payment verification failed"))
  else
    match findOrder db payment.razorpay_order_id with
    | none => (db, .error (.notFound "Order not found"))
    | some order =>
      match findStudent db payment.student_id with
      | none => (db, .error (.notFound "Student not found"))
      | some _student =>
        match findVendor db payment.vendor_id with
        | none => (db, .error (.notFound "Vendor not found"))
        | some _vendor =>
          let su := findOneAndUpdate (fun s => s.student_id == payment.student_id)
            (fun s => { s with
              wallet_balance := some (s.wallet_balance.getD 0 + order.amount) })
            db.students
          let vu := findOneAndUpdate (fun v => v.vendor_id == payment.vendor_id)
            (fun v => { v with
              balance := some (v.balance.getD 0 + order.amount) })
            db.vendors
          let transactions' := updateFirst
            (fun t => t.order_id == some payment.razorpay_order_id)
            (fun t => { t with
              status := "completed"
              payment_id := some payment.razorpay_payment_id
              completed_at := some now
              formatted_date := fd })
            db.transactions
          let db' : DB :=
            { students := su.1, vendors := vu.1, transactions := transactions' }
          match su.2 with
          | none =>
            -- unreachable: the student was found above, so the
            -- find_one_and_update matches; in Python a `None` here would
            -- raise an AttributeError caught as a 500
            (db', .error (.serverError "student_update is None"))
          | some student_update =>
            (db', .ok
              { status := "success"
                message := "Payment verified and processed successfully"
                new_balance := student_update.wallet_balance.getD 0 })

/-- The MongoDB sort key for `sort=[("created_at", -1)]`: a missing
`created_at` field is treated as null, which orders strictly below every
BSON date, so it maps to `0` and a date tick `n` maps to `n + 1`. -/
def txnSortKey (t : Transaction) : Nat :=
  match t.created_at with
  | none => 0
  | some n => n + 1

/-- Descending order on `created_at` (missing field last), the order the
student-transactions query requests from MongoDB. -/
def createdDesc (a b : Transaction) : Prop :=
  txnSortKey b ≤ txnSortKey a

instance : DecidableRel createdDesc := fun a b =>
  inferInstanceAs (Decidable (txnSortKey b ≤ txnSortKey a))

instance : IsTotal Transaction createdDesc :=
  ⟨fun a b => Nat.le_total (txnSortKey b) (txnSortKey a)⟩

instance : IsTrans Transaction createdDesc :=
  ⟨fun _ _ _ hab hbc => Nat.le_trans hbc hab⟩

/-- One element of the list returned by `GET /student/transactions/{id}`.
The stringified `_id` is not modelled. -/
structure FormattedTransaction where
  date : String
  student_id : String
  amount : String
  description : String
  status : String
deriving Repr, DecidableEq

/-- The per-record formatting of `get_student_transactions`:
`date = transaction.get("formatted_date", "N/A")` (always present in this
model), `amount = f"₹{transaction['amount']}"` (the numeric rendering of
the Python float is abstracted to `toString` of the rational), and
`description = transaction.get("description", "Transaction")`. -/
def formatTransaction (t : Transaction) : FormattedTransaction :=
  { date := t.formatted_date
    student_id := t.student_id
    amount := "₹" ++ toString t.amount
    description := t.description.getD "Transaction"
    status := t.status }

/-- The underlying document list of the student-transactions query:
`transactions_collection.find({"student_id": sid}, sort=[("created_at", -1)])`,
i.e. the student's transactions sorted by `created_at` descending with
documents lacking `created_at` last (a stable sort models the server's
choice on ties). -/
def studentTxnQuery (db : DB) (sid : String) : List Transaction :=
  List.insertionSort createdDesc
    (db.transactions.filter (fun t => t.student_id == sid))

/-- Embeds `get_student_transactions` (src/main.py,
`GET /student/transactions/{id}`): 404 if the student is missing, else the
formatted, sorted transaction list. -/
def get_student_transactions (db : DB) (sid : String) :
    Except ApiError (List FormattedTransaction) :=
  match findStudent db sid with
  | none => .error (.notFound "Student not found")
  | some _ => .ok ((studentTxnQuery db sid).map formatTransaction)

/-- The creation instant a transaction document actually records:
recharge documents store it in `created_at`, purchase documents in
`timestamp`. -/
def creationTimeOf (t : Transaction) : Nat :=
  (t.created_at.getD (t.timestamp.getD 0))

/-- Embeds `send_payment_notification` (src/utils/sms_utils.py): create a Twilio
Verify service, then send a verification to the phone; any exception in
either provider call is caught and the function returns `False`, otherwise
`True` (the `message` argument is formatted by the caller but never
transmitted).  `createService` is the outcome of the service-creation call
(service SID on success); `sendVerification` is the outcome of the
verification send, as a function of service SID and phone number. -/
def send_payment_notification (phone_number : String) (_message : String)
    (createService : Except String String)
    (sendVerification : String → String → Except String String) : Bool :=
  match createService with
  | .error _ => false
  | .ok service_sid =>
    match sendVerification service_sid phone_number with
    | .error _ => false
    | .ok _status => true

/-- Embeds `verify_otp` (src/utils/sms_utils.py): run the provider's
verification-check call and return whether its reported status is exactly
`'approved'`; any provider exception is caught and collapses to `False`.
`check` is the outcome of the provider call as a function of service SID,
phone number and code. -/
def verify_otp (phone_number : String) (otp_code : String)
    (service_sid : String)
    (check : String → String → String → Except String String) : Bool :=
  match check service_sid phone_number otp_code with
  | .error _ => false
  | .ok status => status == "approved"

/-- A BSON value, as far as the raw-document model needs one. -/
inductive BVal where
  | str (s : String)
  | num (q : ℚ)
  | oid (n : Nat)
  | boolean (b : Bool)
deriving Repr, DecidableEq

/-- Python `str(...)` on a stored value (the exact digits of numeric and
ObjectId renderings are abstracted to `toString`). -/
def pyStr : BVal → String
  | .str s => s
  | .num q => toString q
  | .oid n => toString n
  | .boolean b => toString b

/-- A raw document: an ordered list of field/value pairs, as a Python dict
preserves insertion order. -/
abbrev BDoc := List (String × BVal)

/-- The in-place `student["_id"] = str(student["_id"])` of `get_student`:
every field keeps its position and name, and only the `_id` value is
replaced by its string rendering.  (A document MongoDB returns always has
`_id`; on a document without one the Python code would raise instead, a
case this map-based model does not distinguish.) -/
def stringifyId (d : BDoc) : BDoc :=
  d.map (fun kv => if kv.1 = "_id" then (kv.1, BVal.str (pyStr kv.2)) else kv)

/-- Embeds `get_student` (src/main.py, `GET /student/{student_id}`) over raw
documents: find the first document whose `student_id` field equals the path
parameter (404 if none), stringify its `_id`, and return the whole
document — no field is projected away. -/
def get_student (students_docs : List BDoc) (student_id : String) :
    Except ApiError BDoc :=
  match students_docs.find?
      (fun d => List.lookup "student_id" d == some (BVal.str student_id)) with
  | none => .error (.notFound "Student not found")
  | some student => .ok (stringifyId student)

/-! ### Helper lemmas about the record-store primitives -/

theorem find?_updateFirst {α : Type} (p : α → Bool) (f : α → α)
    (l : List α) (x : α) (hx : l.find? p = some x) (hf : p (f x) = true) :
    (updateFirst p f l).find? p = some (f x) := by
  induction l with
  | nil => simp at hx
  | cons a as ih =>
    cases hpa : p a with
    | true =>
      rw [List.find?_cons_of_pos _ hpa] at hx
      injection hx with hx
      subst hx
      rw [updateFirst, if_pos hpa, List.find?_cons_of_pos _ hf]
    | false =>
      rw [List.find?_cons_of_neg _ (by simp [hpa])] at hx
      rw [updateFirst, if_neg (by simp [hpa]),
        List.find?_cons_of_neg _ (by simp [hpa])]
      exact ih hx

theorem findOneAndUpdate_eq {α : Type} (p : α → Bool) (f : α → α)
    (l : List α) :
    findOneAndUpdate p f l = (updateFirst p f l, (l.find? p).map f) := by
  induction l with
  | nil => rfl
  | cons a as ih =>
    cases hpa : p a with
    | true =>
      rw [findOneAndUpdate, if_pos hpa, updateFirst, if_pos hpa,
        List.find?_cons_of_pos _ hpa]
      rfl
    | false =>
      rw [findOneAndUpdate, if_neg (by simp [hpa]), updateFirst,
        if_neg (by simp [hpa]), List.find?_cons_of_neg _ (by simp [hpa]), ih]

theorem stringifyId_keys (d : BDoc) :
    (stringifyId d).map Prod.fst = d.map Prod.fst := by
  induction d with
  | nil => rfl
  | cons kv rest ih =>
    by_cases hk : kv.1 = "_id" <;>
      simp [stringifyId, hk] at ih ⊢ <;> exact ih

theorem stringifyId_lookup_ne (d : BDoc) (k : String) (hk : k ≠ "_id") :
    List.lookup k (stringifyId d) = List.lookup k d := by
  induction d with
  | nil => rfl
  | cons kv rest ih =>
    by_cases h1 : kv.1 = "_id"
    · have hne : (k == kv.1) = false := by
        simp [h1]
        exact hk
      rw [stringifyId, List.map_cons, if_pos h1, List.lookup_cons,
        List.lookup_cons, hne]
      exact ih
    · rw [stringifyId, List.map_cons, if_neg h1, List.lookup_cons,
        List.lookup_cons]
      cases hkk : k == kv.1 with
      | true => rfl
      | false => exact ih

theorem stringifyId_lookup_id (d : BDoc) :
    List.lookup "_id" (stringifyId d)
      = (List.lookup "_id" d).map (fun v => BVal.str (pyStr v)) := by
  induction d with
  | nil => rfl
  | cons kv rest ih =>
    by_cases h1 : kv.1 = "_id"
    · rw [stringifyId, List.map_cons, if_pos h1, List.lookup_cons,
        List.lookup_cons]
      have : ("_id" == kv.1) = true := by simp [h1]
      rw [this]
      rfl
    · rw [stringifyId, List.map_cons, if_neg h1, List.lookup_cons,
        List.lookup_cons]
      have : ("_id" == kv.1) = false := by simp [h1]; exact fun h => h1 h.symm
      rw [this]
      exact ih

/-! ### Shared concrete sample data (used by the witnesses) -/

def sampleStudent : Student :=
  { student_id := "S1"
    name := "Asha"
    balance := 100
    wallet_balance := some 10
    password := some "pw123"
    parent_phone := some "+911234567890"
    parent_name := some "Parent" }

def sampleVendor : Vendor :=
  { vendor_id := "V1", name := "Canteen", upi_id := "canteen@upi", balance := some 50 }

def sampleDB : DB :=
  { students := [sampleStudent], vendors := [sampleVendor], transactions := [] }

/-- A pending recharge order for 200 rupees, as inserted by
`create_recharge_order`. -/
def sampleOrderTxn : Transaction :=
  { order_id := some "order_77"
    student_id := "S1"
    vendor_id := "V1"
    amount := 200
    type := "recharge"
    status := "pending"
    description := none
    created_at := some 3
    timestamp := none
    completed_at := none
    formatted_date := "03/01/2026, 09:00:00"
    payment_id := none
    student_balance := none
    vendor_balance := none }

def rechargeDB : DB :=
  { students := [sampleStudent], vendors := [sampleVendor],
    transactions := [sampleOrderTxn] }

/-! ### The claims -/

/-- Claim C1: for every student and vendor that exist, when
`process_student_payment` succeeds with amount `A` (password correct,
`student.balance ≥ A`, `vendor.balance ≥ A`), the student's stored balance
becomes `old_student_balance - A`, the vendor's stored balance becomes
`old_vendor_balance - A`, and the appended transaction record has type
`purchase`, status `completed`, and snapshot fields `student_balance` and
`vendor_balance` equal to exactly those two new values. -/
theorem c1_purchase_updates_balances_and_log
    (db : DB) (p : StudentPaymentRequest) (now : Nat) (fd : String)
    (s : Student) (v : Vendor)
    (hs : findStudent db p.student_id = some s)
    (hpw : s.password = some p.password)
    (hbal : p.amount ≤ s.balance)
    (hv : findVendor db p.vendor_id = some v)
    (hvbal : p.amount ≤ v.balance.getD 0) :
    findStudent (process_student_payment db p now fd).1 p.student_id
      = some { s with balance := s.balance - p.amount } ∧
    findVendor (process_student_payment db p now fd).1 p.vendor_id
      = some { v with balance := some (v.balance.getD 0 - p.amount) } ∧
    (process_student_payment db p now fd).1.transactions
      = db.transactions ++
        [{ order_id := none
           student_id := p.student_id
           vendor_id := p.vendor_id
           amount := p.amount
           type := "purchase"
           description := some p.description
           status := "completed"
           created_at := none
           timestamp := some now
           completed_at := none
           formatted_date := fd
           payment_id := none
           student_balance := some (s.balance - p.amount)
           vendor_balance := some (v.balance.getD 0 - p.amount) }] ∧
    (process_student_payment db p now fd).2
      = .ok { status := "success"
              message := "Payment processed successfully"
              student_balance := s.balance - p.amount
              vendor_balance := v.balance.getD 0 - p.amount
              transaction_date := fd } := by
  have h1 : ¬ s.balance < p.amount := not_lt.mpr hbal
  have h2 : ¬ (Option.getD v.balance 0) < p.amount := not_lt.mpr hvbal
  have h3 : ¬ s.password ≠ some p.password := by rw [hpw]; simp
  have hs' : db.students.find? (fun x => x.student_id == p.student_id) = some s := hs
  have hv' : db.vendors.find? (fun x => x.vendor_id == p.vendor_id) = some v := hv
  simp only [process_student_payment, hs, hv, if_neg h1, if_neg h2, if_neg h3]
  have hf1 : (({ s with balance := s.balance - p.amount } : Student).student_id
      == p.student_id) = true := by
    have h := List.find?_some hs'
    simpa using h
  have hf2 : (({ v with balance := some (v.balance.getD 0 - p.amount) } : Vendor).vendor_id
      == p.vendor_id) = true := by
    have h := List.find?_some hv'
    simpa using h
  refine ⟨?_, ?_, trivial, trivial⟩
  · exact find?_updateFirst (fun x => x.student_id == p.student_id)
      (fun x => { x with balance := s.balance - p.amount }) db.students s hs' hf1
  · exact find?_updateFirst (fun x => x.vendor_id == p.vendor_id)
      (fun x => { x with balance := some (v.balance.getD 0 - p.amount) }) db.vendors v hv' hf2

/-- Sample payment request matching the spec scenario: student `S1` with
balance 100, vendor `V1` with balance 50, purchase amount 30. -/
def c1req : StudentPaymentRequest :=
  { student_id := "S1", vendor_id := "V1", amount := 30,
    description := "lunch", password := "pw123" }

/-- Witness for C1 at the spec's own scenario (100/50, amount 30 → 70/20). -/
theorem c1_witness :
    findStudent (process_student_payment sampleDB c1req 7 "07/01/2026, 12:00:00").1
        c1req.student_id
      = some { sampleStudent with balance := sampleStudent.balance - c1req.amount } ∧
    findVendor (process_student_payment sampleDB c1req 7 "07/01/2026, 12:00:00").1
        c1req.vendor_id
      = some { sampleVendor with
               balance := some (sampleVendor.balance.getD 0 - c1req.amount) } ∧
    (process_student_payment sampleDB c1req 7 "07/01/2026, 12:00:00").1.transactions
      = sampleDB.transactions ++
        [{ order_id := none
           student_id := c1req.student_id
           vendor_id := c1req.vendor_id
           amount := c1req.amount
           type := "purchase"
           description := some c1req.description
           status := "completed"
           created_at := none
           timestamp := some 7
           completed_at := none
           formatted_date := "07/01/2026, 12:00:00"
           payment_id := none
           student_balance := some (sampleStudent.balance - c1req.amount)
           vendor_balance := some (sampleVendor.balance.getD 0 - c1req.amount) }] ∧
    (process_student_payment sampleDB c1req 7 "07/01/2026, 12:00:00").2
      = .ok { status := "success"
              message := "Payment processed successfully"
              student_balance := sampleStudent.balance - c1req.amount
              vendor_balance := sampleVendor.balance.getD 0 - c1req.amount
              transaction_date := "07/01/2026, 12:00:00" } ∧
    sampleStudent.balance - c1req.amount = 70 ∧
    sampleVendor.balance.getD 0 - c1req.amount = 20 := by
  refine ⟨?_, ?_, ?_, ?_, by norm_num [sampleStudent, c1req],
    by norm_num [sampleVendor, c1req]⟩
  · exact (c1_purchase_updates_balances_and_log sampleDB c1req 7 "07/01/2026, 12:00:00"
      sampleStudent sampleVendor rfl rfl (by decide) rfl (by decide)).1
  · exact (c1_purchase_updates_balances_and_log sampleDB c1req 7 "07/01/2026, 12:00:00"
      sampleStudent sampleVendor rfl rfl (by decide) rfl (by decide)).2.1
  · exact (c1_purchase_updates_balances_and_log sampleDB c1req 7 "07/01/2026, 12:00:00"
      sampleStudent sampleVendor rfl rfl (by decide) rfl (by decide)).2.2.1
  · exact (c1_purchase_updates_balances_and_log sampleDB c1req 7 "07/01/2026, 12:00:00"
      sampleStudent sampleVendor rfl rfl (by decide) rfl (by decide)).2.2.2

/-- Claim C2: for every verification request with a valid gateway signature
whose `order_id` matches a stored transaction and whose student and vendor
exist, `verify_recharge_payment` increments the student's `wallet_balance`
and the vendor's `balance` each by exactly the amount recorded in that
stored transaction (the request's own `amount` field, here arbitrary, is
never read), and the returned `new_balance` equals the student's
`wallet_balance` after the increment. -/
theorem c2_verify_credits_stored_amount
    (db : DB) (pay : VerifyPaymentRequest) (now : Nat) (fd : String)
    (t : Transaction) (s : Student) (v : Vendor)
    (ht : findOrder db pay.razorpay_order_id = some t)
    (hs : findStudent db pay.student_id = some s)
    (hv : findVendor db pay.vendor_id = some v) :
    findStudent (verify_recharge_payment db pay true now fd).1 pay.student_id
      = some { s with wallet_balance := some (s.wallet_balance.getD 0 + t.amount) } ∧
    findVendor (verify_recharge_payment db pay true now fd).1 pay.vendor_id
      = some { v with balance := some (v.balance.getD 0 + t.amount) } ∧
    (verify_recharge_payment db pay true now fd).2
      = .ok { status := "success"
              message := "Payment verified and processed successfully"
              new_balance := s.wallet_balance.getD 0 + t.amount } := by
  have hs' : db.students.find? (fun x => x.student_id == pay.student_id) = some s := hs
  have hv' : db.vendors.find? (fun x => x.vendor_id == pay.vendor_id) = some v := hv
  have hf1 : (({ s with wallet_balance := some (s.wallet_balance.getD 0 + t.amount) } :
      Student).student_id == pay.student_id) = true := by
    have h := List.find?_some hs'
    simpa using h
  have hf2 : (({ v with balance := some (v.balance.getD 0 + t.amount) } :
      Vendor).vendor_id == pay.vendor_id) = true := by
    have h := List.find?_some hv'
    simpa using h
  unfold verify_recharge_payment
  rw [ht, hs, hv]
  dsimp only
  rw [findOneAndUpdate_eq, findOneAndUpdate_eq, hs', hv']
  refine ⟨?_, ?_, rfl⟩
  · exact find?_updateFirst (fun x => x.student_id == pay.student_id)
      (fun x => { x with wallet_balance := some (x.wallet_balance.getD 0 + t.amount) })
      db.students s hs' hf1
  · exact find?_updateFirst (fun x => x.vendor_id == pay.vendor_id)
      (fun x => { x with balance := some (x.balance.getD 0 + t.amount) })
      db.vendors v hv' hf2

/-- Verification request for the stored 200-rupee order; its own `amount`
key carries an unrelated value (999) that the handler never reads. -/
def c2req : VerifyPaymentRequest :=
  { razorpay_payment_id := "pay_9", razorpay_order_id := "order_77",
    student_id := "S1", vendor_id := "V1", amount := some 999 }

/-- Witness for C2: wallet 10 + stored 200 = 210 (not 10 + 999). -/
theorem c2_witness :
    findStudent (verify_recharge_payment rechargeDB c2req true 9 "d9").1 c2req.student_id
      = some { sampleStudent with
               wallet_balance :=
                 some (sampleStudent.wallet_balance.getD 0 + sampleOrderTxn.amount) } ∧
    findVendor (verify_recharge_payment rechargeDB c2req true 9 "d9").1 c2req.vendor_id
      = some { sampleVendor with
               balance := some (sampleVendor.balance.getD 0 + sampleOrderTxn.amount) } ∧
    (verify_recharge_payment rechargeDB c2req true 9 "d9").2
      = .ok { status := "success"
              message := "Payment verified and processed successfully"
              new_balance := sampleStudent.wallet_balance.getD 0 + sampleOrderTxn.amount } ∧
    sampleStudent.wallet_balance.getD 0 + sampleOrderTxn.amount = 210 := by
  refine ⟨?_, ?_, ?_, by norm_num [sampleStudent, sampleOrderTxn]⟩
  · exact (c2_verify_credits_stored_amount rechargeDB c2req 9 "d9"
      sampleOrderTxn sampleStudent sampleVendor rfl rfl rfl).1
  · exact (c2_verify_credits_stored_amount rechargeDB c2req 9 "d9"
      sampleOrderTxn sampleStudent sampleVendor rfl rfl rfl).2.1
  · exact (c2_verify_credits_stored_amount rechargeDB c2req 9 "d9"
      sampleOrderTxn sampleStudent sampleVendor rfl rfl rfl).2.2

/-- Claim C3: for every database, `create_recharge_order` leaves the
students collection (hence every student's `balance` and `wallet_balance`)
and the vendors collection (hence every vendor's `balance`) unchanged,
whatever the gateway call or the notification returns; of the two recharge
operations only `verify_recharge_payment` (see C2) mutates balances. -/
theorem c3_create_order_never_mutates_balances
    (db : DB) (request : WalletRechargeRequest)
    (gateway : OrderData → Except String String)
    (now : Nat) (fd : String) (key : String) (notifyOk : Bool) :
    (create_recharge_order db request gateway now fd key notifyOk).1.students
      = db.students ∧
    (create_recharge_order db request gateway now fd key notifyOk).1.vendors
      = db.vendors := by
  cases h1 : findStudent db request.student_id with
  | none => simp [create_recharge_order, h1]
  | some s =>
    cases h2 : findVendor db request.vendor_id with
    | none => simp [create_recharge_order, h1, h2]
    | some v =>
      cases h3 : gateway (rechargeOrderData request) with
      | error e => simp [create_recharge_order, h1, h2, h3]
      | ok oid => simp [create_recharge_order, h1, h2, h3]

/-- Claim C4: for all non-negative amount and student balance with
`amount > student.balance`, `process_student_payment` on an existing
student with the correct password fails with "Insufficient balance"
(HTTP 400), regardless of the vendor's existence or balance, and the
database is returned unchanged. -/
theorem c4_insufficient_balance_error
    (db : DB) (p : StudentPaymentRequest) (now : Nat) (fd : String) (s : Student)
    (hs : findStudent db p.student_id = some s)
    (hpw : s.password = some p.password)
    (hamt : 0 ≤ p.amount) (hbal0 : 0 ≤ s.balance)
    (hgt : s.balance < p.amount) :
    process_student_payment db p now fd
      = (db, .error (.badRequest "Insufficient balance")) ∧
    (ApiError.badRequest "Insufficient balance").statusCode = 400 := by
  have h3 : ¬ s.password ≠ some p.password := by rw [hpw]; simp
  refine ⟨?_, rfl⟩
  simp only [process_student_payment, hs, if_neg h3, if_pos hgt]

/-- Payment request for 150 rupees against the 100-rupee sample balance;
note `sampleDB` contains no vendor check being reached at all. -/
def c4req : StudentPaymentRequest :=
  { student_id := "S1", vendor_id := "V1", amount := 150,
    description := "", password := "pw123" }

/-- Witness for C4 at amount 150 > balance 100. -/
theorem c4_witness :
    process_student_payment sampleDB c4req 7 "d7"
      = (sampleDB, .error (.badRequest "Insufficient balance")) ∧
    (ApiError.badRequest "Insufficient balance").statusCode = 400 :=
  c4_insufficient_balance_error sampleDB c4req 7 "d7" sampleStudent rfl rfl
    (by decide) (by decide) (by decide)

/-- Claim C5: for every purchase request where the student exists, the
password is correct, `student.balance ≥ amount`, the vendor exists, and
`vendor.balance` (0 if absent) `< amount`, `process_student_payment` fails
with "Insufficient vendor balance" (HTTP 400) and the database — balances
and transaction log — is returned unchanged. -/
theorem c5_insufficient_vendor_balance_error
    (db : DB) (p : StudentPaymentRequest) (now : Nat) (fd : String)
    (s : Student) (v : Vendor)
    (hs : findStudent db p.student_id = some s)
    (hpw : s.password = some p.password)
    (hbal : p.amount ≤ s.balance)
    (hv : findVendor db p.vendor_id = some v)
    (hvlt : v.balance.getD 0 < p.amount) :
    process_student_payment db p now fd
      = (db, .error (.badRequest "Insufficient vendor balance")) ∧
    (ApiError.badRequest "Insufficient vendor balance").statusCode = 400 := by
  have h1 : ¬ s.balance < p.amount := not_lt.mpr hbal
  have h3 : ¬ s.password ≠ some p.password := by rw [hpw]; simp
  refine ⟨?_, rfl⟩
  simp only [process_student_payment, hs, hv, if_neg h3, if_neg h1, if_pos hvlt]

/-- Purchase of 60 rupees: student balance 100 suffices, vendor balance 50
does not (the spec's own scenario). -/
def c5req : StudentPaymentRequest :=
  { student_id := "S1", vendor_id := "V1", amount := 60,
    description := "books", password := "pw123" }

/-- Witness for C5 at amount 60 against vendor balance 50. -/
theorem c5_witness :
    process_student_payment sampleDB c5req 7 "d7"
      = (sampleDB, .error (.badRequest "Insufficient vendor balance")) ∧
    (ApiError.badRequest "Insufficient vendor balance").statusCode = 400 :=
  c5_insufficient_vendor_balance_error sampleDB c5req 7 "d7" sampleStudent sampleVendor
    rfl rfl (by decide) rfl (by decide)

/-- Claim C6: for every verification request with a valid gateway signature
whose `order_id` matches no stored transaction, `verify_recharge_payment`
fails with "Order not found" (HTTP 404) and the database is returned
unchanged: no `wallet_balance`, vendor `balance`, or transaction record is
mutated. -/
theorem c6_verify_unknown_order_not_found
    (db : DB) (pay : VerifyPaymentRequest) (now : Nat) (fd : String)
    (h : findOrder db pay.razorpay_order_id = none) :
    verify_recharge_payment db pay true now fd
      = (db, .error (.notFound "Order not found")) ∧
    (ApiError.notFound "Order not found").statusCode = 404 := by
  refine ⟨?_, rfl⟩
  unfold verify_recharge_payment
  rw [h]
  rfl

/-- Verification request naming an order id that no transaction carries. -/
def c6req : VerifyPaymentRequest :=
  { razorpay_payment_id := "pay_1", razorpay_order_id := "order_missing",
    student_id := "S1", vendor_id := "V1", amount := none }

/-- Witness for C6: `rechargeDB` stores only `order_77`. -/
theorem c6_witness :
    verify_recharge_payment rechargeDB c6req true 9 "d9"
      = (rechargeDB, .error (.notFound "Order not found")) ∧
    (ApiError.notFound "Order not found").statusCode = 404 :=
  c6_verify_unknown_order_not_found rechargeDB c6req 9 "d9" rfl

/-- Claim C7 (amended): the order amount sent to the gateway is
`int(amount * 100)`, i.e. the minor-unit value truncated toward zero, with
the fixed currency code `INR`; the `amount` returned to the client equals
that same truncated value; and whenever `amount * 100` is an integral
number of minor units the truncation is exact, i.e. equals
`amount * 100`. -/
theorem c7_minor_unit_conversion (request : WalletRechargeRequest) :
    (rechargeOrderData request).amount = pyInt (request.amount * 100) ∧
    (rechargeOrderData request).currency = "INR" ∧
    (∀ (db : DB) (gateway : OrderData → Except String String) (now : Nat)
        (fd key : String) (nk : Bool) (resp : RechargeOrderResponse),
       (create_recharge_order db request gateway now fd key nk).2 = .ok resp →
       resp.amount = pyInt (request.amount * 100) ∧ resp.currency = "INR") ∧
    ((request.amount * 100).den = 1 →
       (pyInt (request.amount * 100) : ℚ) = request.amount * 100) := by
  refine ⟨rfl, rfl, ?_, ?_⟩
  · intro db gateway now fd key nk resp h
    unfold create_recharge_order at h
    split at h
    · simp at h
    · split at h
      · simp at h
      · dsimp only at h
        split at h
        · simp at h
        · rw [Except.ok.injEq] at h
          subst h
          exact ⟨rfl, rfl⟩
  · intro hden
    have hq : ((request.amount * 100).num : ℚ) = request.amount * 100 :=
      (Rat.den_eq_one_iff _).mp hden
    unfold pyInt
    split
    · rw [← hq, Int.floor_intCast]
    · rw [← hq, Int.ceil_intCast]

/-- A 200-rupee recharge request (the spec's recharge scenario amount). -/
def c7wreq : WalletRechargeRequest :=
  { student_id := "S1", vendor_id := "V1", amount := 200 }

/-- A gateway that accepts the order and returns a fixed order id. -/
def c7gw : OrderData → Except String String := fun _ => .ok "order_1"

/-- Witness for C7's amended theorem at amount 200: the gateway and the
client both see `int(200 * 100) = 20000` paise, and the truncation is exact
there. -/
theorem c7_witness :
    ({ id := "order_1", amount := pyInt (c7wreq.amount * 100), currency := "INR",
       key := "key_1" } : RechargeOrderResponse).amount = pyInt (c7wreq.amount * 100) ∧
    ({ id := "order_1", amount := pyInt (c7wreq.amount * 100), currency := "INR",
       key := "key_1" } : RechargeOrderResponse).currency = "INR" ∧
    (pyInt (c7wreq.amount * 100) : ℚ) = c7wreq.amount * 100 := by
  have h3 := (c7_minor_unit_conversion c7wreq).2.2.1 sampleDB c7gw 3 "d3" "key_1" true
    { id := "order_1", amount := pyInt (c7wreq.amount * 100), currency := "INR",
      key := "key_1" } rfl
  have hden : (c7wreq.amount * 100).den = 1 := by
    have h20000 : c7wreq.amount * 100 = (20000 : ℚ) := by norm_num [c7wreq]
    rw [h20000]
    rfl
  exact ⟨h3.1, h3.2, (c7_minor_unit_conversion c7wreq).2.2.2 hden⟩

/-- A recharge request for half a paisa (0.005 rupees), a value the request
type (a float) admits. -/
def c7creq : WalletRechargeRequest :=
  { student_id := "S1", vendor_id := "V1", amount := 1 / 200 }

/-- Counterexample to claim C7 as stated: for `amount = 1/200` the gateway
is sent `int(0.005 * 100) = 0`, which is not `amount * 100 = 1/2`, and the
response's `amount` is that same truncated value. -/
theorem c7_counterexample :
    (rechargeOrderData c7creq).amount = 0 ∧
    ((rechargeOrderData c7creq).amount : ℚ) ≠ c7creq.amount * 100 ∧
    (create_recharge_order sampleDB c7creq c7gw 3 "d3" "key_1" true).2
      = .ok { id := "order_1", amount := (rechargeOrderData c7creq).amount,
              currency := "INR", key := "key_1" } := by
  have h1 : (rechargeOrderData c7creq).amount = 0 := by
    norm_num [rechargeOrderData, pyInt, c7creq]
  refine ⟨h1, ?_, rfl⟩
  rw [h1]
  norm_num [c7creq]

/-- Claim C8 (amended): the student-transactions endpoint returns the
student's transactions sorted by the `created_at` field descending, with
documents lacking `created_at` (purchase records, which store their time in
`timestamp` instead) placed last, and every record's amount rendered as a
`₹`-prefixed string. -/
theorem c8_transactions_sorted_by_created_at_field
    (db : DB) (sid : String) (out : List FormattedTransaction)
    (h : get_student_transactions db sid = .ok out) :
    out = (studentTxnQuery db sid).map formatTransaction ∧
    List.Pairwise createdDesc (studentTxnQuery db sid) ∧
    List.Perm (studentTxnQuery db sid)
      (db.transactions.filter (fun t => t.student_id == sid)) ∧
    ∀ f ∈ out, ∃ t, t ∈ studentTxnQuery db sid ∧ f = formatTransaction t ∧
      f.amount = "₹" ++ toString t.amount := by
  have hout : out = (studentTxnQuery db sid).map formatTransaction := by
    unfold get_student_transactions at h
    cases hfs : findStudent db sid with
    | none => rw [hfs] at h; simp at h
    | some s =>
      rw [hfs] at h
      dsimp only at h
      rw [Except.ok.injEq] at h
      exact h.symm
  refine ⟨hout, List.sorted_insertionSort createdDesc _,
    List.perm_insertionSort createdDesc _, ?_⟩
  intro f hf
  rw [hout] at hf
  obtain ⟨t, htmem, rfl⟩ := List.mem_map.mp hf
  exact ⟨t, htmem, rfl, rfl⟩

/-- Witness for C8's amended theorem on `rechargeDB`. -/
theorem c8_witness :
    ([formatTransaction sampleOrderTxn]
        = (studentTxnQuery rechargeDB "S1").map formatTransaction) ∧
    List.Pairwise createdDesc (studentTxnQuery rechargeDB "S1") ∧
    List.Perm (studentTxnQuery rechargeDB "S1")
      (rechargeDB.transactions.filter (fun t => t.student_id == "S1")) ∧
    ∀ f ∈ [formatTransaction sampleOrderTxn], ∃ t,
      t ∈ studentTxnQuery rechargeDB "S1" ∧ f = formatTransaction t ∧
      f.amount = "₹" ++ toString t.amount :=
  c8_transactions_sorted_by_created_at_field rechargeDB "S1"
    [formatTransaction sampleOrderTxn] rfl

/-- A completed recharge transaction created at tick 5. -/
def c8oldRecharge : Transaction :=
  { order_id := some "order_1"
    student_id := "S1"
    vendor_id := "V1"
    amount := 200
    type := "recharge"
    status := "completed"
    description := none
    created_at := some 5
    timestamp := none
    completed_at := some 6
    formatted_date := "05/01/2026, 09:00:00"
    payment_id := some "pay_1"
    student_balance := none
    vendor_balance := none }

/-- A purchase transaction created later, at tick 10; as in the source, it
has no `created_at` field — its creation instant is in `timestamp`. -/
def c8newPurchase : Transaction :=
  { order_id := none
    student_id := "S1"
    vendor_id := "V1"
    amount := 30
    type := "purchase"
    status := "completed"
    description := some "lunch"
    created_at := none
    timestamp := some 10
    completed_at := none
    formatted_date := "10/01/2026, 13:00:00"
    payment_id := none
    student_balance := some 70
    vendor_balance := some 20 }

def c8db : DB :=
  { students := [sampleStudent], vendors := [sampleVendor],
    transactions := [c8oldRecharge, c8newPurchase] }

/-- Counterexample to claim C8 as stated: the recharge created at tick 5 is
returned before the purchase created at tick 10, so the output is not
sorted by creation time descending (the newest record is not first). -/
theorem c8_counterexample :
    get_student_transactions c8db "S1"
      = .ok [formatTransaction c8oldRecharge, formatTransaction c8newPurchase] ∧
    creationTimeOf c8oldRecharge = 5 ∧
    creationTimeOf c8newPurchase = 10 ∧
    ¬ creationTimeOf c8newPurchase ≤ creationTimeOf c8oldRecharge :=
  ⟨rfl, rfl, rfl, by decide⟩

/-- Claim C9: the notification-bridge operations never raise to their
caller: `send_payment_notification` returns a boolean with every provider
error converted to `false`, and `verify_otp` returns `true` exactly when
the provider reports the code approved, with every provider error
collapsing to `false`. -/
theorem c9_sms_bridge_never_raises
    (phone_number message otp_code service_sid : String)
    (createService : Except String String)
    (sendVerification : String → String → Except String String)
    (check : String → String → String → Except String String) :
    ((∃ e, createService = .error e) →
       send_payment_notification phone_number message createService sendVerification
         = false) ∧
    (∀ sid, createService = .ok sid →
       (∃ e, sendVerification sid phone_number = .error e) →
       send_payment_notification phone_number message createService sendVerification
         = false) ∧
    ((∃ e, check service_sid phone_number otp_code = .error e) →
       verify_otp phone_number otp_code service_sid check = false) ∧
    (verify_otp phone_number otp_code service_sid check = true ↔
       check service_sid phone_number otp_code = .ok "approved") := by
  refine ⟨?_, ?_, ?_, ?_⟩
  · rintro ⟨e, he⟩
    simp [send_payment_notification, he]
  · rintro sid hok ⟨e, he⟩
    simp [send_payment_notification, hok, he]
  · rintro ⟨e, he⟩
    simp [verify_otp, he]
  · constructor
    · intro h
      unfold verify_otp at h
      cases hc : check service_sid phone_number otp_code with
      | error e => rw [hc] at h; simp at h
      | ok status =>
        rw [hc] at h
        dsimp only at h
        rw [beq_iff_eq] at h
        rw [h]
    · intro h
      simp [verify_otp, h]

/-- Witness for C9: a failing service creation yields `false`, and an
approved check yields `true`. -/
theorem c9_witness :
    send_payment_notification "+911234567890" "Payment Alert" (.error "boom")
      (fun _ _ => .ok "pending") = false ∧
    verify_otp "+911234567890" "123456" "svc_1"
      (fun _ _ _ => .ok "approved") = true := by
  refine ⟨?_, ?_⟩
  · exact (c9_sms_bridge_never_raises "+911234567890" "Payment Alert" "123456" "svc_1"
      (.error "boom") (fun _ _ => .ok "pending") (fun _ _ _ => .ok "approved")).1
      ⟨"boom", rfl⟩
  · exact (c9_sms_bridge_never_raises "+911234567890" "Payment Alert" "123456" "svc_1"
      (.error "boom") (fun _ _ => .ok "pending") (fun _ _ _ => .ok "approved")).2.2.2.mpr
      rfl

/-- Claim C10: `GET /student/{id}` returns the entire stored student
document with only `_id` converted to a string and no field removed, so
the response still carries the stored plaintext `password` and both
balance fields. -/
theorem c10_get_student_returns_whole_document
    (docs : List BDoc) (sid : String) (doc out : BDoc)
    (hfind : docs.find?
        (fun d => List.lookup "student_id" d == some (BVal.str sid)) = some doc)
    (hok : get_student docs sid = .ok out) :
    out = stringifyId doc ∧
    out.map Prod.fst = doc.map Prod.fst ∧
    (∀ k, k ≠ "_id" → List.lookup k out = List.lookup k doc) ∧
    List.lookup "_id" out = (List.lookup "_id" doc).map (fun v => BVal.str (pyStr v)) ∧
    List.lookup "password" out = List.lookup "password" doc ∧
    List.lookup "balance" out = List.lookup "balance" doc ∧
    List.lookup "wallet_balance" out = List.lookup "wallet_balance" doc := by
  have hout : out = stringifyId doc := by
    unfold get_student at hok
    rw [hfind] at hok
    dsimp only at hok
    rw [Except.ok.injEq] at hok
    exact hok.symm
  subst hout
  exact ⟨rfl, stringifyId_keys doc, fun k hk => stringifyId_lookup_ne doc k hk,
    stringifyId_lookup_id doc,
    stringifyId_lookup_ne doc "password" (by decide),
    stringifyId_lookup_ne doc "balance" (by decide),
    stringifyId_lookup_ne doc "wallet_balance" (by decide)⟩

/-- The raw student document behind `sampleStudent`, with its ObjectId. -/
def sampleStudentDoc : BDoc :=
  [("_id", BVal.oid 7), ("student_id", BVal.str "S1"), ("name", BVal.str "Asha"),
   ("balance", BVal.num 100), ("wallet_balance", BVal.num 10),
   ("password", BVal.str "pw123"), ("parent_phone", BVal.str "+911234567890")]

/-- Witness for C10: the served document keeps every key, including the
plaintext password and both balances. -/
theorem c10_witness :
    (stringifyId sampleStudentDoc).map Prod.fst = sampleStudentDoc.map Prod.fst ∧
    List.lookup "password" (stringifyId sampleStudentDoc) = some (BVal.str "pw123") ∧
    List.lookup "balance" (stringifyId sampleStudentDoc) = some (BVal.num 100) ∧
    List.lookup "wallet_balance" (stringifyId sampleStudentDoc) = some (BVal.num 10) := by
  have h := c10_get_student_returns_whole_document [sampleStudentDoc] "S1"
    sampleStudentDoc (stringifyId sampleStudentDoc) rfl rfl
  refine ⟨h.2.1, ?_, ?_, ?_⟩
  · rw [h.2.2.2.2.1]; rfl
  · rw [h.2.2.2.2.2.1]; rfl
  · rw [h.2.2.2.2.2.2]; rfl

end CardBackend
